import Mathlib

/-!
Verification of `create_plays_db.py`: a one-shot batch loader that reads a
CSV file in chunks of 100 000 rows, heuristically converts numeric-looking
textual columns to numeric dtype, and writes every chunk into a single
SQLite table called `plays`.

The development is a shallow embedding of the script.  Pure helpers of the
script (`looks_numeric`, `coerce_numeric_columns`, `write_chunk`) become
Lean functions over explicit column/table data; the `main` procedure
becomes a function from an explicit world state (presence and content of
the input CSV and of the output database file) to a run result that also
records the connection lifecycle.  Machine floats only occur in two places
of the script and both are modelled exactly:

* the 95 % threshold test `matches / len(sample) >= 0.95` is modelled as
  the exact rational comparison.  This is faithful: the sample holds at
  most 1000 values, so the real quotient `m / n` either equals `19 / 20`
  exactly (then both the float comparison and the rational comparison are
  true, because both sides round to the same double) or differs from it by
  at least `1 / 20000`, which dwarfs the `2⁻⁵²` relative rounding error of
  the two float operations, so the comparisons agree;
* float values produced by `pandas.to_numeric` are modelled as exact
  rationals (plus infinities and NaN).  No claim below depends on float
  rounding or on int64/float64 overflow, which are therefore not modelled.
-/

/-! ### Python string primitives

`looks_numeric` calls `str.strip()` and matches the result against the
regex `^[+-]?\d+(?:\.\d+)?$` compiled by Python's `re` module with default
flags.  With default flags `\d` matches every Unicode decimal digit
(category Nd), not only ASCII `0-9`, and `str.strip()` removes every
character for which `str.isspace()` holds. -/

/-- Characters removed by Python's `str.strip()` (the `str.isspace()`
characters): ASCII whitespace, the C1 separators, and the Unicode space
separators. -/
def isPySpace (c : Char) : Bool :=
  let n := c.toNat
  (9 ≤ n && n ≤ 13) || (28 ≤ n && n ≤ 31) || n = 32 || n = 133 || n = 160 ||
    n = 0x1680 || (0x2000 ≤ n && n ≤ 0x200A) || n = 0x2028 || n = 0x2029 ||
    n = 0x202F || n = 0x205F || n = 0x3000

/-- Python `str.strip()`: drop leading and trailing whitespace characters. -/
def pyStrip (s : String) : String :=
  ⟨((s.data.dropWhile isPySpace).reverse.dropWhile isPySpace).reverse⟩

/-- First code points of the 10-character blocks of Unicode decimal digits
(category Nd).  Python's `\d` with default `re` flags matches exactly these
characters. -/
def digitBlockStarts : List Nat :=
  [0x30, 0x660, 0x6F0, 0x7C0, 0x966, 0x9E6, 0xA66, 0xAE6, 0xB66, 0xBE6,
   0xC66, 0xCE6, 0xD66, 0xDE6, 0xE50, 0xED0, 0xF20, 0x1040, 0x1090, 0x17E0,
   0x1810, 0x1946, 0x19D0, 0x1A80, 0x1A90, 0x1B50, 0x1BB0, 0x1C40, 0x1C50,
   0xA620, 0xA8D0, 0xA900, 0xA9D0, 0xA9F0, 0xAA50, 0xABF0, 0xFF10,
   0x104A0, 0x10D30, 0x11066, 0x110F0, 0x11136, 0x111D0, 0x112F0, 0x11450,
   0x114D0, 0x11650, 0x116C0, 0x11730, 0x118E0, 0x11950, 0x11C50, 0x11D50,
   0x11DA0, 0x11F50, 0x16A60, 0x16AC0, 0x16B50, 0x1D7CE, 0x1D7D8, 0x1D7E2,
   0x1D7EC, 0x1D7F6, 0x1E140, 0x1E2F0, 0x1E4F0, 0x1E950, 0x1FBF0]

/-- Python regex `\d` with default flags: any Unicode decimal digit. -/
def isPyDigit (c : Char) : Bool :=
  digitBlockStarts.any (fun b => b ≤ c.toNat && c.toNat < b + 10)

/-- Strip an optional single leading `+` or `-`. -/
def dropSign : List Char → List Char
  | '+' :: r => r
  | '-' :: r => r
  | cs => cs

/-- Recogniser for the regex `^[+-]?\d+(?:\.\d+)?$` of `looks_numeric`,
parameterised by the digit class used for `\d`.  (After `strip()` the
subject has no trailing newline, so `$` is plain end-of-string.) -/
def matchesNumericWith (isDig : Char → Bool) (s : String) : Bool :=
  let cs := dropSign s.data
  let ip := cs.takeWhile isDig
  let rest := cs.dropWhile isDig
  !ip.isEmpty &&
    (match rest with
     | [] => true
     | '.' :: fr => !fr.isEmpty && fr.all isDig
     | _ => false)

/-- The regex test of `looks_numeric` as compiled by Python: `\d` matches
any Unicode decimal digit. -/
def matchesNumeric (s : String) : Bool :=
  matchesNumericWith isPyDigit s

/-- Modelled from the spec: the spec's reading of the same regex, in which
"non-ASCII digits are NOT recognized as numeric", i.e. `\d` restricted to
ASCII `0-9`.  Used only to compare the spec's matching rule against the
code's. -/
def specMatchesNumeric (s : String) : Bool :=
  matchesNumericWith Char.isDigit s

/-! ### looks_numeric -/

/-- The script calls `looks_numeric` with the default `sample_size=1000`. -/
def SAMPLE_SIZE : Nat := 1000

/-- `series.dropna()`: the non-missing values of an object column, in
order.  (`astype(str)` is the identity here: the non-missing values of an
object column produced by `read_csv` are already strings.) -/
def dropna (cells : List (Option String)) : List String :=
  cells.filterMap id

/-- Number of sampled values matching the numeric regex after stripping. -/
def matchCountWith (isDig : Char → Bool) (sample : List String) : Nat :=
  (sample.filter (fun v => matchesNumericWith isDig (pyStrip v))).length

/-- `looks_numeric`, parameterised by the digit class of the regex.  The
script calls it with the default `threshold=0.95`; the float comparison is
modelled by the exact rational comparison (see the header comment). -/
def looksNumericWith (isDig : Char → Bool) (series : List (Option String)) : Bool :=
  if series.isEmpty then false
  else
    let sample0 := dropna series
    if sample0.isEmpty then false
    else
      let sample := sample0.take SAMPLE_SIZE
      decide (mkRat 95 100 ≤ mkRat (matchCountWith isDig sample : Int) sample.length)

/-- `looks_numeric(series)` from the script (default sample size and
threshold, Unicode `\d`). -/
def looks_numeric (series : List (Option String)) : Bool :=
  looksNumericWith isPyDigit series

/-- Modelled from the spec: the detector with the spec's ASCII-only
matching rule, for comparison with `looks_numeric`. -/
def specLooksNumeric (series : List (Option String)) : Bool :=
  looksNumericWith Char.isDigit series

example : matchesNumeric "123" = true := by decide
example : matchesNumeric "+1" = true := by decide
example : matchesNumeric "-1.5" = true := by decide
example : matchesNumeric "1e5" = false := by decide
example : matchesNumeric "1,000" = false := by decide
example : matchesNumeric "٣" = true := by decide
example : specMatchesNumeric "٣" = false := by decide
example : matchesNumeric "" = false := by decide
example : matchesNumeric ".5" = false := by decide
example : matchesNumeric "1." = false := by decide
example : pyStrip "  12\n" = "12" := by decide
example : looks_numeric [some "1", some "x"] = false := by decide
example : looks_numeric [some "1", none, some "2"] = true := by decide

/-! ### pandas numeric values and the `to_numeric` string parser

`coerce_numeric_columns` calls `pd.to_numeric(s, errors="coerce")`.  Its
string parser (pandas' `maybe_convert_numeric` / `floatify` /
`precise_xstrtod`) accepts decimal literals — optional surrounding ASCII
whitespace, optional sign, ASCII digits with an optional fractional part
and an optional exponent part — and, as whole-string case-insensitive
spellings, the infinity and NaN words.  Unparseable values become NaN
because of `errors="coerce"`; NaN is also pandas' missing-value marker. -/

/-- Result of parsing one value: an exact rational standing for the float
value, or one of the special floats. -/
inductive PFloat where
  | fin (q : ℚ)
  | inf
  | neginf
  | nan
deriving DecidableEq

/-- ASCII digit, as used by the C parser behind `to_numeric`. -/
def isAsciiDigit (c : Char) : Bool :=
  48 ≤ c.toNat && c.toNat ≤ 57

/-- C `isspace` on ASCII, used by the C parser to skip surrounding
whitespace of a numeric literal. -/
def isAsciiSpace (c : Char) : Bool :=
  c.toNat = 32 || (9 ≤ c.toNat && c.toNat ≤ 13)

/-- Value of a big-endian list of ASCII digits. -/
def digitsVal (ds : List Char) : Nat :=
  ds.foldl (fun n c => 10 * n + (c.toNat - 48)) 0

/-- Exact value of a decimal literal: sign, digit value `d` of the mantissa
with the decimal point removed, and net decimal exponent `e` (exponent part
minus number of fractional digits). -/
def ratOfParts (neg : Bool) (d : Nat) (e : Int) : ℚ :=
  let n : Int := if neg then -(d : Int) else (d : Int)
  if 0 ≤ e then mkRat (n * ((10 : Int) ^ e.toNat)) 1
  else mkRat n ((10 : Nat) ^ (-e).toNat)

/-- ASCII lowercase of a string (for the case-insensitive comparisons the
parser performs on the infinity/NaN spellings). -/
def lowerStr (s : String) : String :=
  ⟨s.data.map Char.toLower⟩

/-- Parse a decimal literal the way `precise_xstrtod` does: skip leading
whitespace, optional sign, digits with optional `.digits`, at least one
digit overall, optional `e`/`E` exponent with its own optional sign and at
least one digit, skip trailing whitespace, and require the whole string to
be consumed.  Returns the exact value together with the `maybe_int` flag
(true when the literal had neither a decimal point nor an exponent). -/
def parseNumLit (cs0 : List Char) : Option (ℚ × Bool) :=
  let cs1 := cs0.dropWhile isAsciiSpace
  let sg : Bool × List Char :=
    match cs1 with
    | '-' :: r => (true, r)
    | '+' :: r => (false, r)
    | _ => (false, cs1)
  let neg := sg.1
  let ip := sg.2.takeWhile isAsciiDigit
  let cs2 := sg.2.dropWhile isAsciiDigit
  let fracPart : Bool × List Char × List Char :=
    match cs2 with
    | '.' :: r => (true, r.takeWhile isAsciiDigit, r.dropWhile isAsciiDigit)
    | _ => (false, [], cs2)
  let hasDot := fracPart.1
  let fp := fracPart.2.1
  let cs3 := fracPart.2.2
  if ip.isEmpty && fp.isEmpty then none
  else
    let expPart : Option (Option Int × List Char) :=
      match cs3 with
      | c :: r =>
        if c = 'e' || c = 'E' then
          let esg : Bool × List Char :=
            match r with
            | '-' :: rr => (true, rr)
            | '+' :: rr => (false, rr)
            | _ => (false, r)
          let ed := esg.2.takeWhile isAsciiDigit
          let r2 := esg.2.dropWhile isAsciiDigit
          if ed.isEmpty then none
          else some (some (if esg.1 then -(digitsVal ed : Int) else (digitsVal ed : Int)), r2)
        else some (none, c :: r)
      | [] => some (none, [])
    match expPart with
    | none => none
    | some (eo, rest) =>
      if (rest.dropWhile isAsciiSpace).isEmpty then
        let e : Int := eo.getD 0 - fp.length
        some (ratOfParts neg (digitsVal (ip ++ fp)) e, !hasDot && eo.isNone)
      else none

/-- The string parser of `pd.to_numeric`: decimal literals, else the
whole-string case-insensitive infinity and NaN spellings.  `none` means the
value cannot be parsed (with `errors="coerce"` it then becomes NaN).  The
`Bool` is the parser's `maybe_int` flag. -/
def pdParseNumeric (s : String) : Option (PFloat × Bool) :=
  match parseNumLit s.data with
  | some (q, mi) => some (PFloat.fin q, mi)
  | none =>
    let t := lowerStr s
    if t = "inf" || t = "+inf" || t = "infinity" || t = "+infinity" then some (PFloat.inf, false)
    else if t = "-inf" || t = "-infinity" then some (PFloat.neginf, false)
    else if t = "nan" || t = "+nan" || t = "-nan" then some (PFloat.nan, false)
    else none

/-- Value stored in a coerced cell for original string `v`: `none` (NaN,
pandas' missing marker, stored as SQL NULL) when the parser fails or
parses a NaN spelling, otherwise the parsed number. -/
def toNumericCellVal (v : String) : Option PFloat :=
  match pdParseNumeric v with
  | none => none
  | some (PFloat.nan, _) => none
  | some (p, _) => some p

example : parseNumLit " 12 ".data = some (12, true) := by decide
example : parseNumLit "-3.5".data = some (mkRat (-7) 2, false) := by decide
example : parseNumLit "1e5".data = some (100000, false) := by decide
example : parseNumLit "1.25e-2".data = some (mkRat 1 80, false) := by decide
example : parseNumLit "1e".data = none := by decide
example : parseNumLit ".5".data = some (mkRat 1 2, false) := by decide
example : parseNumLit "1.".data = some (1, false) := by decide
example : parseNumLit "1,000".data = none := by decide
example : parseNumLit "٣".data = none := by decide
example : pdParseNumeric "Inf" = some (PFloat.inf, false) := by decide
example : pdParseNumeric "-Infinity" = some (PFloat.neginf, false) := by decide
example : pdParseNumeric "NaN" = some (PFloat.nan, false) := by decide
example : pdParseNumeric "short pass" = none := by decide
example : toNumericCellVal "nan" = none := by decide
example : toNumericCellVal "1e5" = some (PFloat.fin 100000) := by decide

/-! ### Columns, DataFrames and numeric coercion

A chunk is a DataFrame: a row count and named columns.  A column produced
by `read_csv` is either an object column (strings, with `none` for missing
values), an int64 column, or a float64 column (`none` for NaN). -/

/-- Data of one column of a chunk. -/
inductive ColData where
  | objCol (cells : List (Option String))
  | intCol (cells : List Int)
  | floatCol (cells : List (Option PFloat))
deriving DecidableEq

/-- A chunk of the CSV as a DataFrame. -/
structure DataFrame where
  nrows : Nat
  cols : List (String × ColData)
deriving DecidableEq

/-- Whether a parsed cell is an integer literal (the parser succeeded with
`maybe_int` set).  `maybe_convert_numeric` produces an int64 column exactly
when every cell is such a literal (so in particular no missing values and
no NaN). -/
def parsedIsIntLit (po : Option (PFloat × Bool)) : Bool :=
  match po with
  | some (PFloat.fin _, true) => true
  | _ => false

/-- Integer value of a parsed integer literal (only used under
`parsedIsIntLit`). -/
def parsedIntVal (po : Option (PFloat × Bool)) : Int :=
  match po with
  | some (PFloat.fin q, _) => q.num
  | _ => 0

/-- Result of `pd.to_numeric(s, errors="coerce")` on an object column:
an int64 column when every cell is an integer literal, otherwise a float64
column in which missing, unparseable and NaN-spelling cells are NaN. -/
def toNumericCol (cells : List (Option String)) : ColData :=
  let parsed := cells.map (fun oc => oc.bind (fun v => pdParseNumeric v))
  if parsed.all parsedIsIntLit then
    ColData.intCol (parsed.map parsedIntVal)
  else
    ColData.floatCol (cells.map (fun oc => oc.bind (fun v => toNumericCellVal v)))

/-- The per-column action of `coerce_numeric_columns`: object columns that
`looks_numeric` are converted with `pd.to_numeric(..., errors="coerce")`,
every other column is left untouched. -/
def coerceCol (cd : ColData) : ColData :=
  match cd with
  | ColData.objCol cells =>
    if looks_numeric cells then toNumericCol cells else ColData.objCol cells
  | other => other

/-- `coerce_numeric_columns(df)`: apply the coercion to every column (the
loop body touches only object columns; `coerceCol` is the identity on the
others). -/
def coerce_numeric_columns (df : DataFrame) : DataFrame :=
  { nrows := df.nrows, cols := df.cols.map (fun nc => (nc.1, coerceCol nc.2)) }

/-! ### Reading the CSV in chunks

The input file is modelled at the level `read_csv` delivers it: a header
naming the columns and the data rows as lists of raw fields.  Per-chunk
dtype inference is modelled with the default NA strings and the same
numeric-literal grammar as above; the claims under verification are
conditioned on the resulting dtypes (or insensitive to them), so finer
points of the C tokenizer do not affect them. -/

/-- The input CSV file: header row and data rows of raw fields. -/
structure CSVFile where
  header : List String
  rows : List (List String)
deriving DecidableEq

/-- pandas' default NA strings (`STR_NA_VALUES`): fields read as missing. -/
def NA_STRINGS : List String :=
  ["", "#N/A", "#N/A N/A", "#NA", "-1.#IND", "-1.#QNAN", "-NaN", "-nan",
   "1.#IND", "1.#QNAN", "<NA>", "N/A", "NA", "NULL", "NaN", "None",
   "n/a", "nan", "null"]

/-- Is the raw field one of the default missing-value spellings? -/
def isNAString (s : String) : Bool :=
  NA_STRINGS.contains s

/-- Per-chunk dtype inference for one column of raw fields: an empty chunk
gives an (empty) object column; an all-missing column is float64 NaN; a
column of integer literals with no missing values is int64; a column whose
non-missing values all parse numerically is float64; anything else stays an
object column of strings. -/
def inferColumn (raw : List String) : ColData :=
  if raw.isEmpty then ColData.objCol []
  else
    let cells := raw.map (fun f => if isNAString f then none else some f)
    if cells.all Option.isNone then ColData.floatCol (raw.map (fun _ => none))
    else
      let parsed := cells.map (fun oc => oc.bind (fun v => pdParseNumeric v))
      if parsed.all parsedIsIntLit then ColData.intCol (parsed.map parsedIntVal)
      else if cells.all (fun oc => (oc.bind (fun v => pdParseNumeric v)).isSome || oc.isNone) then
        ColData.floatCol (cells.map (fun oc => oc.bind (fun v => toNumericCellVal v)))
      else ColData.objCol cells

/-- Raw fields of column `j` over the rows of a chunk (a short row yields a
missing field). -/
def columnField (rows : List (List String)) (j : Nat) : List String :=
  rows.map (fun r => r.getD j "")

/-- Parse one chunk of rows into a DataFrame with the header's columns. -/
def parseChunk (header : List String) (rows : List (List String)) : DataFrame :=
  { nrows := rows.length,
    cols := (List.range header.length).map
      (fun j => (header.getD j "", inferColumn (columnField rows j))) }

/-- `chunksize=100_000` in the `read_csv` call. -/
def CHUNKSIZE : Nat := 100000

/-- Split a list into consecutive chunks of `n` elements (the last chunk
may be shorter).  The structural `fuel` argument (instantiated with the
list length) only drives termination. -/
def chunksOfFuel (n : Nat) : Nat → List α → List (List α)
  | 0, l => if l.isEmpty then [] else [l]
  | fuel + 1, l => if l.isEmpty then [] else l.take n :: chunksOfFuel n fuel (l.drop n)

/-- Consecutive chunks of `n` rows. -/
def chunksOf (n : Nat) (l : List α) : List (List α) :=
  chunksOfFuel n l.length l

/-- `pd.read_csv(CSV_PATH, chunksize=100_000, low_memory=False)`, iterated:
the data rows in chunks of 100 000, each parsed independently.  A file with
zero data rows yields exactly one empty chunk (pandas' first-chunk special
case returns an empty frame with the header's columns instead of stopping
the iteration). -/
def readCsvChunks (f : CSVFile) : List DataFrame :=
  let groups := if f.rows.isEmpty then [[]] else chunksOf CHUNKSIZE f.rows
  groups.map (fun g => parseChunk f.header g)

/-! ### The SQLite side -/

/-- A value stored in the SQLite table. -/
inductive SVal where
  | null
  | intg (z : Int)
  | real (p : PFloat)
  | text (s : String)
deriving DecidableEq

/-- SQLite column type declared by `DataFrame.to_sql` for each dtype. -/
def sqliteTypeOf : ColData → String
  | ColData.objCol _ => "TEXT"
  | ColData.intCol _ => "INTEGER"
  | ColData.floatCol _ => "REAL"

/-- Stored value of row `i` of a column (missing/NaN becomes SQL NULL). -/
def cellAt : ColData → Nat → SVal
  | ColData.objCol l, i =>
    match l.getD i none with
    | none => SVal.null
    | some s => SVal.text s
  | ColData.intCol l, i => SVal.intg (l.getD i 0)
  | ColData.floatCol l, i =>
    match l.getD i none with
    | none => SVal.null
    | some p => SVal.real p

/-- The rows a chunk contributes to the table, in source order. -/
def rowsOf (df : DataFrame) : List (List SVal) :=
  (List.range df.nrows).map (fun i => df.cols.map (fun nc => cellAt nc.2 i))

/-- The single destination table: declared schema and stored rows. -/
structure Table where
  cols : List (String × String)
  rows : List (List SVal)
deriving DecidableEq

/-- Table created from one chunk by `to_sql`. -/
def tableOf (df : DataFrame) : Table :=
  { cols := df.cols.map (fun nc => (nc.1, sqliteTypeOf nc.2)), rows := rowsOf df }

/-- Fixed paths and table name of the script. -/
def CSV_PATH : String := "team_data_combined/plays.csv"

/-- The output database path. -/
def DB_PATH : String := "plays.db"

/-- The destination table name. -/
def TABLE_NAME : String := "plays"

/-- `write_chunk(conn, chunk, if_exists)`: `to_sql` with
`if_exists="replace"` drops any existing table and recreates it from this
chunk; `"append"` inserts the chunk's rows (creating the table if absent).
SQLite does not check appended values against the declared column types. -/
def write_chunk (db : Option Table) (chunk : DataFrame) (replace : Bool) : Table :=
  match replace, db with
  | true, _ => tableOf chunk
  | false, none => tableOf chunk
  | false, some t => { cols := t.cols, rows := t.rows ++ rowsOf chunk }

/-! ### The `main` procedure

`main` is embedded as a function from an explicit world state to a run
result.  The input path holds either no file, an empty file (zero bytes:
`read_csv` raises `EmptyDataError` while the connection is already open),
or a CSV file.  The output path holds either no file, a database file
without the `plays` table (as freshly created by `sqlite3.connect`), or a
database file with the table.  Failures that are not under the script's
control are injected through oracles: `wf k` makes the `k`-th `to_sql`
write raise (e.g. disk full), `qf` makes the verification queries raise.
The `try`/`finally` block is embedded structurally: each branch of the
result records whether the connection was opened and whether it was closed
when `main` returned. -/

/-- State of the input path. -/
inductive CsvSource where
  | absent
  | empty
  | file (f : CSVFile)
deriving DecidableEq

/-- The world visible to the script: input path and output database path
(`none` = no file; `some none` = database file without the `plays` table;
`some (some t)` = database file whose `plays` table is `t`). -/
structure World where
  src : CsvSource
  db : Option (Option Table)
deriving DecidableEq

/-- Errors a run can end with. -/
inductive Err where
  | fileNotFound (path : String)
  | emptyData
  | writeFail (k : Nat)
  | noSuchTable
  | queryFail
deriving DecidableEq

/-- The values `main` prints on success: the `SELECT COUNT(*)` result, the
streaming total `total_rows`, and the `PRAGMA table_info` schema. -/
structure Report where
  countQ : Nat
  totalStreamed : Nat
  schema : List (String × String)
deriving DecidableEq

/-- Outcome of the run. -/
inductive Outcome where
  | ok (r : Report)
  | err (e : Err)
deriving DecidableEq

/-- Result of one invocation of `main`. -/
structure RunResult where
  world : World
  opened : Bool
  closed : Bool
  output : Outcome
deriving DecidableEq

/-- State of the chunk loop when it stops: database content, accumulated
`total_rows`, and the error that interrupted it, if any. -/
structure LoopOut where
  db : Option Table
  total : Nat
  err : Option Err
deriving DecidableEq

/-- The chunk loop of `main`: coerce each chunk, write it (`replace` for
the first chunk, `append` afterwards), and accumulate `total_rows`.  A
write that the oracle fails stops the loop with the database unchanged by
that write. -/
def runLoop (wf : Nat → Bool) : Nat → Bool → Nat → Option Table → List DataFrame → LoopOut
  | _, _, total, db, [] => { db := db, total := total, err := none }
  | k, first, total, db, chunk :: rest =>
    let c := coerce_numeric_columns chunk
    if wf k then { db := db, total := total, err := some (Err.writeFail k) }
    else runLoop wf (k + 1) false (total + c.nrows) (some (write_chunk db c first)) rest

/-- `main()`: check the input exists, delete any existing `plays.db`, open
the connection, stream the chunks, run the verification queries, and close
the connection on every path out of the `try` block. -/
def mainRun (w : World) (wf : Nat → Bool) (qf : Bool) : RunResult :=
  match w.src with
  | CsvSource.absent =>
    { world := w, opened := false, closed := false,
      output := Outcome.err (Err.fileNotFound CSV_PATH) }
  | CsvSource.empty =>
    { world := { src := w.src, db := some none }, opened := true, closed := true,
      output := Outcome.err Err.emptyData }
  | CsvSource.file f =>
    let lo := runLoop wf 0 true 0 none (readCsvChunks f)
    match lo.err with
    | some e =>
      { world := { src := w.src, db := some lo.db }, opened := true, closed := true,
        output := Outcome.err e }
    | none =>
      match lo.db with
      | none =>
        { world := { src := w.src, db := some none }, opened := true, closed := true,
          output := Outcome.err Err.noSuchTable }
      | some t =>
        if qf then
          { world := { src := w.src, db := some (some t) }, opened := true, closed := true,
            output := Outcome.err Err.queryFail }
        else
          { world := { src := w.src, db := some (some t) }, opened := true, closed := true,
            output := Outcome.ok { countQ := t.rows.length, totalStreamed := lo.total,
                                   schema := t.cols } }

/-- Did the run leave the connection open? -/
def connLeaked (r : RunResult) : Bool :=
  r.opened && !r.closed

example :
    (mainRun
      { src := CsvSource.file
          { header := ["down", "yards", "desc"],
            rows := [["1", "10", "short pass"], ["2", "-5", "run left"],
                     ["3", "3.5", "deep pass"]] },
        db := none }
      (fun _ => false) false).output =
    Outcome.ok { countQ := 3, totalStreamed := 3,
                 schema := [("down", "INTEGER"), ("yards", "REAL"), ("desc", "TEXT")] } := by
  decide

/-! ### Helper lemmas -/

lemma take_ne_nil_of_ne_nil (n : Nat) (l : List α) (hn : n ≠ 0) (hl : l ≠ []) :
    l.take n ≠ [] := by
  cases l with
  | nil => exact absurd rfl hl
  | cons a l =>
    cases n with
    | zero => exact absurd rfl hn
    | succ n => simp [List.take]

lemma mkRat_natCast_eq_div (m n : ℕ) : mkRat (m : Int) n = (m : ℚ) / (n : ℚ) := by
  rw [Rat.mkRat_eq_div]
  push_cast
  ring

lemma mkRat_95_100 : mkRat 95 100 = (95 : ℚ) / 100 := by
  norm_num [Rat.mkRat_eq_div]

/-- The detector succeeds exactly when the ≤1000-value sample is non-empty
and at least 95 % of it matches the regex. -/
lemma looksNumericWith_iff (isDig : Char → Bool) (cells : List (Option String)) :
    looksNumericWith isDig cells = true ↔
      ((dropna cells).take SAMPLE_SIZE ≠ [] ∧
        (95 : ℚ) / 100 ≤ (matchCountWith isDig ((dropna cells).take SAMPLE_SIZE) : ℚ) /
          (((dropna cells).take SAMPLE_SIZE).length : ℚ)) := by
  unfold looksNumericWith
  by_cases h1 : cells.isEmpty
  · have hc : cells = [] := List.isEmpty_iff.mp h1
    subst hc
    simp [dropna]
  · rw [if_neg (by simpa using h1)]
    by_cases h2 : (dropna cells).isEmpty
    · have hd : dropna cells = [] := List.isEmpty_iff.mp h2
      simp [hd]
    · have hd : dropna cells ≠ [] := by simpa [List.isEmpty_iff] using h2
      have hs : (dropna cells).take SAMPLE_SIZE ≠ [] :=
        take_ne_nil_of_ne_nil _ _ (by decide) hd
      rw [if_neg (by simpa using h2)]
      rw [decide_eq_true_eq, mkRat_95_100, mkRat_natCast_eq_div]
      exact ⟨fun h => ⟨hs, h⟩, fun h => h.2⟩

/-- C6.  For a column whose set of non-missing values is empty (entirely
missing, or empty), `looks_numeric` returns `false` — the division by the
sample length is never reached — and the coercion step leaves the column
untouched. -/
theorem claim6_empty_sample (cells : List (Option String)) (h : dropna cells = []) :
    looks_numeric cells = false ∧ coerceCol (ColData.objCol cells) = ColData.objCol cells := by
  have hl : looks_numeric cells = false := by
    unfold looks_numeric looksNumericWith
    by_cases h1 : cells.isEmpty
    · rw [if_pos (by simpa using h1)]
    · rw [if_neg (by simpa using h1)]
      simp [h]
  exact ⟨hl, by simp [coerceCol, hl]⟩

/-- Witness for C6: a column consisting of one missing value. -/
theorem claim6_witness :
    dropna [none] = [] ∧ looks_numeric [none] = false ∧
      coerceCol (ColData.objCol [none]) = ColData.objCol [none] :=
  ⟨rfl, claim6_empty_sample [none] rfl⟩

/-- C4.  When the input CSV is absent the run fails with a file-not-found
error naming the expected path, and the world — in particular any
pre-existing output database — is left exactly as it was. -/
theorem claim4_missing_input (w : World) (wf : Nat → Bool) (qf : Bool)
    (h : w.src = CsvSource.absent) :
    (mainRun w wf qf).output = Outcome.err (Err.fileNotFound CSV_PATH) ∧
      (mainRun w wf qf).world = w := by
  rcases w with ⟨src, db⟩
  cases src with
  | absent => exact ⟨rfl, rfl⟩
  | empty => simp at h
  | file f => simp at h

/-- Witness for C4: absent input with a pre-existing database file. -/
theorem claim4_witness :
    (mainRun
        { src := CsvSource.absent,
          db := some (some { cols := [("a", "TEXT")], rows := [[SVal.text "x"]] }) }
        (fun _ => false) false).output = Outcome.err (Err.fileNotFound CSV_PATH) ∧
      (mainRun
        { src := CsvSource.absent,
          db := some (some { cols := [("a", "TEXT")], rows := [[SVal.text "x"]] }) }
        (fun _ => false) false).world =
      { src := CsvSource.absent,
        db := some (some { cols := [("a", "TEXT")], rows := [[SVal.text "x"]] }) } :=
  claim4_missing_input _ (fun _ => false) false rfl

/-- C8.  On every execution path — any world, any injected write failure,
any injected query failure — `main` never returns with the connection
still open. -/
theorem claim8_conn_closed (w : World) (wf : Nat → Bool) (qf : Bool) :
    connLeaked (mainRun w wf qf) = false := by
  rcases w with ⟨src, db⟩
  cases src <;> simp only [mainRun, connLeaked] <;> (repeat' split) <;> rfl

/-- C1, counterexample.  A column containing the Arabic-Indic digit `"٣"`:
under the spec's matching rule (non-ASCII digits do not count) the sample's
matching fraction is 0, below the 95 % threshold, so the claim says the
column must stay textual — but the code's regex, whose `\d` is
Unicode-aware, matches the value, and the coercion step converts the
column to numeric (REAL) type. -/
theorem claim1_counterexample :
    specMatchesNumeric (pyStrip "٣") = false ∧
    matchCountWith Char.isDigit ["٣"] = 0 ∧
    specLooksNumeric [some "٣"] = false ∧
    matchesNumeric (pyStrip "٣") = true ∧
    looks_numeric [some "٣"] = true ∧
    coerceCol (ColData.objCol [some "٣"]) = ColData.floatCol [none] ∧
    sqliteTypeOf (coerceCol (ColData.objCol [some "٣"])) = "REAL" := by
  decide

/-- C1, amended.  An object column is converted to numeric type exactly
when the ≤1000-value sample of its non-missing values is non-empty and at
least 95 % of it matches `^[+-]?\d+(?:\.\d+)?$` after stripping, where `\d`
is any Unicode decimal digit (so non-ASCII digits DO count); below the
threshold the column is left untouched as text.  Scientific notation and
thousands separators still do not count as matches. -/
theorem claim1_amended (cells : List (Option String)) :
    (coerceCol (ColData.objCol cells) =
      if ((dropna cells).take SAMPLE_SIZE ≠ [] ∧
            (95 : ℚ) / 100 ≤ (matchCountWith isPyDigit ((dropna cells).take SAMPLE_SIZE) : ℚ) /
              (((dropna cells).take SAMPLE_SIZE).length : ℚ))
        then toNumericCol cells else ColData.objCol cells) ∧
    (sqliteTypeOf (toNumericCol cells) = "INTEGER" ∨
      sqliteTypeOf (toNumericCol cells) = "REAL") ∧
    matchesNumeric (pyStrip " 1e5 ") = false ∧
    matchesNumeric (pyStrip "1,000") = false ∧
    matchesNumeric (pyStrip " ٣ ") = true := by
  refine ⟨?_, ?_, by decide, by decide, by decide⟩
  · by_cases hc : ((dropna cells).take SAMPLE_SIZE ≠ [] ∧
        (95 : ℚ) / 100 ≤ (matchCountWith isPyDigit ((dropna cells).take SAMPLE_SIZE) : ℚ) /
          (((dropna cells).take SAMPLE_SIZE).length : ℚ))
    · rw [if_pos hc]
      have hl : looks_numeric cells = true := by
        unfold looks_numeric
        exact (looksNumericWith_iff _ _).mpr hc
      simp [coerceCol, hl]
    · rw [if_neg hc]
      have hl : looks_numeric cells = false := by
        cases hb : looks_numeric cells with
        | false => rfl
        | true =>
          exact absurd ((looksNumericWith_iff _ _).mp hb) hc
      simp [coerceCol, hl]
  · unfold toNumericCol
    by_cases h : (cells.map (fun oc => oc.bind fun v => pdParseNumeric v)).all parsedIsIntLit = true
    · simp only [h, if_true]
      exact Or.inl rfl
    · simp only [h, if_false]
      exact Or.inr rfl

/-- C9, counterexample.  In a column classified numeric, the value `"nan"`
is rejected by the detector's regex but accepted by the `to_numeric`
parser — yet it is stored as NULL, not as a number, because it parses to
NaN, which is pandas' missing marker. -/
theorem claim9_counterexample :
    looks_numeric (List.replicate 19 (some "1") ++ [some "nan"]) = true ∧
    matchesNumeric (pyStrip "nan") = false ∧
    pdParseNumeric "nan" = some (PFloat.nan, false) ∧
    coerceCol (ColData.objCol (List.replicate 19 (some "1") ++ [some "nan"])) =
      ColData.floatCol (List.replicate 19 (some (PFloat.fin 1)) ++ [none]) ∧
    cellAt (coerceCol (ColData.objCol (List.replicate 19 (some "1") ++ [some "nan"]))) 19 =
      SVal.null := by
  decide

/-- C9, amended.  In a column classified numeric, a value the parser
accepts with a non-NaN result is stored as that number (in particular
`"1e5"` and `"inf"`, which the detector's regex rejects); a value is
stored as the missing/null marker exactly when the parser cannot parse it
or parses it to NaN (the `"nan"` spellings). -/
theorem claim9_amended :
    (∀ v : String, toNumericCellVal v = none ↔
        (pdParseNumeric v = none ∨ ∃ b, pdParseNumeric v = some (PFloat.nan, b))) ∧
    (∀ (v : String) (p : PFloat) (b : Bool), pdParseNumeric v = some (p, b) →
        p ≠ PFloat.nan → toNumericCellVal v = some p) ∧
    (∀ cells : List (Option String), looks_numeric cells = true →
        coerceCol (ColData.objCol cells) = toNumericCol cells) ∧
    pdParseNumeric "1e5" = some (PFloat.fin 100000, false) ∧
    pdParseNumeric "inf" = some (PFloat.inf, false) ∧
    toNumericCellVal "1e5" = some (PFloat.fin 100000) ∧
    toNumericCellVal "inf" = some PFloat.inf := by
  refine ⟨?_, ?_, ?_, by decide, by decide, by decide, by decide⟩
  · intro v
    rcases h : pdParseNumeric v with _ | ⟨p, b⟩
    · simp [toNumericCellVal, h]
    · cases p <;> simp [toNumericCellVal, h]
  · intro v p b h hp
    cases p <;> simp [toNumericCellVal, h]
    exact absurd rfl hp
  · intro cells hl
    simp [coerceCol, hl]

/-- Witness for C9's amended statement at concrete inputs. -/
theorem claim9_amended_witness :
    toNumericCellVal "x7" = none ∧
    toNumericCellVal "-2.5" = some (PFloat.fin (mkRat (-5) 2)) ∧
    coerceCol (ColData.objCol [some "3"]) = toNumericCol [some "3"] :=
  ⟨(claim9_amended.1 "x7").mpr (Or.inl (by decide)),
   claim9_amended.2.1 "-2.5" (PFloat.fin (mkRat (-5) 2)) false (by decide) (by decide),
   claim9_amended.2.2.1 [some "3"] (by decide)⟩

/-! ### Lemmas about the chunk loop -/

lemma length_rowsOf (df : DataFrame) : (rowsOf df).length = df.nrows := by
  simp [rowsOf]

lemma runLoop_nofail (cs : List DataFrame) : ∀ (k total : Nat) (t : Table),
    runLoop (fun _ => false) k false total (some t) cs =
      { db := some { cols := t.cols,
                     rows := t.rows ++
                       (cs.map (fun c => rowsOf (coerce_numeric_columns c))).flatten },
        total := total + (cs.map (fun c => (coerce_numeric_columns c).nrows)).sum,
        err := none } := by
  induction cs with
  | nil =>
    intro k total t
    simp [runLoop]
  | cons c cs ih =>
    intro k total t
    simp only [runLoop, Bool.false_eq_true, if_false]
    rw [ih]
    simp [write_chunk, List.append_assoc, Nat.add_assoc]

lemma runLoop_start (cs : List DataFrame) (c0 : DataFrame) :
    runLoop (fun _ => false) 0 true 0 none (c0 :: cs) =
      { db := some { cols := (tableOf (coerce_numeric_columns c0)).cols,
                     rows := rowsOf (coerce_numeric_columns c0) ++
                       (cs.map (fun c => rowsOf (coerce_numeric_columns c))).flatten },
        total := (coerce_numeric_columns c0).nrows +
          (cs.map (fun c => (coerce_numeric_columns c).nrows)).sum,
        err := none } := by
  simp only [runLoop, Bool.false_eq_true, if_false]
  rw [runLoop_nofail]
  simp [write_chunk, tableOf]

lemma chunksOfFuel_flatten (n : Nat) (hn : 0 < n) :
    ∀ (fuel : Nat) (l : List α), l.length ≤ fuel → (chunksOfFuel n fuel l).flatten = l := by
  intro fuel
  induction fuel with
  | zero =>
    intro l hl
    have hz : l = [] := List.length_eq_zero.mp (Nat.le_zero.mp hl)
    subst hz
    rfl
  | succ fuel ih =>
    intro l hl
    cases l with
    | nil => rfl
    | cons a l' =>
      show ((a :: l').take n :: chunksOfFuel n fuel ((a :: l').drop n)).flatten = a :: l'
      have hb : ((a :: l').drop n).length ≤ fuel := by
        rw [List.length_drop]
        simp only [List.length_cons] at hl ⊢
        omega
      simp only [List.flatten_cons, ih _ hb, List.take_append_drop]

lemma chunksOf_flatten (n : Nat) (hn : 0 < n) (l : List α) : (chunksOf n l).flatten = l :=
  chunksOfFuel_flatten n hn l.length l le_rfl

lemma chunksOf_ne_nil (n : Nat) (l : List α) (hl : l ≠ []) : chunksOf n l ≠ [] := by
  have he : l.isEmpty = false := by
    cases l with
    | nil => exact absurd rfl hl
    | cons a l' => rfl
  unfold chunksOf
  cases l.length <;> simp [chunksOfFuel, he]

lemma readCsvChunks_ne_nil (f : CSVFile) : readCsvChunks f ≠ [] := by
  unfold readCsvChunks
  by_cases h : f.rows.isEmpty
  · simp [h]
  · simp only [h, Bool.false_eq_true, if_false]
    simp only [ne_eq, List.map_eq_nil_iff]
    exact chunksOf_ne_nil _ _ (by simpa [List.isEmpty_iff] using h)

lemma length_flatten_rowsOf (cs : List DataFrame) :
    ((cs.map (fun c => rowsOf (coerce_numeric_columns c))).flatten).length =
      (cs.map (fun c => (coerce_numeric_columns c).nrows)).sum := by
  rw [List.length_flatten, List.map_map]
  have hcomp : (List.length ∘ fun c => rowsOf (coerce_numeric_columns c)) =
      fun c : DataFrame => (coerce_numeric_columns c).nrows :=
    funext (fun c => length_rowsOf _)
  rw [hcomp]

lemma sum_nrows_readCsvChunks (f : CSVFile) :
    ((readCsvChunks f).map (fun c => (coerce_numeric_columns c).nrows)).sum =
      f.rows.length := by
  unfold readCsvChunks
  by_cases h : f.rows.isEmpty
  · have hz : f.rows = [] := List.isEmpty_iff.mp h
    simp only [h, if_true, hz, List.map_cons, List.map_nil, List.sum_cons, List.sum_nil,
      List.length_nil]
    rfl
  · simp only [h, Bool.false_eq_true, if_false, List.map_map]
    have hcomp : ((fun c => (coerce_numeric_columns c).nrows) ∘ fun g => parseChunk f.header g) =
        fun g : List (List String) => g.length := rfl
    rw [hcomp]
    have hlen : (fun g : List (List String) => g.length) = List.length := rfl
    rw [hlen, ← List.length_flatten,
      chunksOf_flatten CHUNKSIZE (by decide) f.rows]

/-- C2.  With chunk size 100 000, the first chunk creates (overwrites) the
table — schema and rows taken from that chunk after its own coercion — and
every later chunk appends the rows of its own independently coerced data,
leaving the declared schema that of the first chunk; each chunk's
contribution is a function of that chunk alone. -/
theorem claim2_chunked_load (f : CSVFile) (db0 : Option (Option Table))
    (c0 : DataFrame) (rest : List DataFrame) (h : readCsvChunks f = c0 :: rest) :
    CHUNKSIZE = 100000 ∧
    (mainRun { src := CsvSource.file f, db := db0 } (fun _ => false) false).world.db =
      some (some { cols := (tableOf (coerce_numeric_columns c0)).cols,
                   rows := rowsOf (coerce_numeric_columns c0) ++
                     (rest.map (fun c => rowsOf (coerce_numeric_columns c))).flatten }) := by
  refine ⟨rfl, ?_⟩
  simp only [mainRun, h, runLoop_start, Bool.false_eq_true, if_false]

/-- Witness for C2: a two-row CSV that forms a single chunk. -/
theorem claim2_witness :
    readCsvChunks { header := ["a"], rows := [["1"], ["x"]] } =
      parseChunk ["a"] [["1"], ["x"]] :: [] ∧
    (CHUNKSIZE = 100000 ∧
      (mainRun { src := CsvSource.file { header := ["a"], rows := [["1"], ["x"]] },
                 db := none } (fun _ => false) false).world.db =
        some (some { cols := (tableOf (coerce_numeric_columns (parseChunk ["a"] [["1"], ["x"]]))).cols,
                     rows := rowsOf (coerce_numeric_columns (parseChunk ["a"] [["1"], ["x"]])) ++
                       (([] : List DataFrame).map
                         (fun c => rowsOf (coerce_numeric_columns c))).flatten })) :=
  ⟨by decide, claim2_chunked_load _ none _ [] (by decide)⟩

/-- C3.  A run that completes reports a `SELECT COUNT(*)` row count equal
to the streaming total accumulated in the loop, which is the sum of the
(coerced) chunk lengths, and both equal the number of data rows of the
input — whether or not that number is a multiple of the chunk size. -/
theorem claim3_count_roundtrip (f : CSVFile) (db0 : Option (Option Table)) :
    ∃ rep : Report,
      (mainRun { src := CsvSource.file f, db := db0 } (fun _ => false) false).output =
        Outcome.ok rep ∧
      rep.countQ = rep.totalStreamed ∧
      rep.totalStreamed =
        ((readCsvChunks f).map (fun c => (coerce_numeric_columns c).nrows)).sum ∧
      rep.totalStreamed = f.rows.length := by
  obtain ⟨c0, rest, h⟩ : ∃ c0 rest, readCsvChunks f = c0 :: rest := by
    cases hc : readCsvChunks f with
    | nil => exact absurd hc (readCsvChunks_ne_nil f)
    | cons a b => exact ⟨a, b, rfl⟩
  refine ⟨{ countQ := (rowsOf (coerce_numeric_columns c0) ++
              (rest.map (fun c => rowsOf (coerce_numeric_columns c))).flatten).length,
            totalStreamed := (coerce_numeric_columns c0).nrows +
              (rest.map (fun c => (coerce_numeric_columns c).nrows)).sum,
            schema := (tableOf (coerce_numeric_columns c0)).cols }, ?_, ?_, ?_, ?_⟩
  · simp only [mainRun, h, runLoop_start, Bool.false_eq_true, if_false]
  · simp only [List.length_append, length_rowsOf, length_flatten_rowsOf]
  · rw [h]
    simp [List.sum_cons]
  · rw [← sum_nrows_readCsvChunks f, h]
    simp [List.sum_cons]

/-- C5.  A header-only input (zero data rows) runs to completion: `read_csv`
yields one empty chunk, the table is created with one (TEXT) column per
header name and zero rows, and the reported counts are 0. -/
theorem claim5_header_only (hdr : List String) (db0 : Option (Option Table)) :
    ∃ t : Table,
      (mainRun { src := CsvSource.file { header := hdr, rows := [] }, db := db0 }
        (fun _ => false) false).world.db = some (some t) ∧
      (mainRun { src := CsvSource.file { header := hdr, rows := [] }, db := db0 }
        (fun _ => false) false).output =
        Outcome.ok { countQ := 0, totalStreamed := 0, schema := t.cols } ∧
      t.rows = [] ∧
      t.cols.length = hdr.length := by
  have hc : readCsvChunks { header := hdr, rows := [] } = [parseChunk hdr []] := rfl
  refine ⟨{ cols := (List.range hdr.length).map (fun j => (hdr.getD j "", "TEXT")),
            rows := [] }, ?_, ?_, rfl, ?_⟩
  · simp only [mainRun, hc, runLoop_start, Bool.false_eq_true, if_false]
    simp only [tableOf, coerce_numeric_columns, parseChunk, List.map_map, List.map_nil,
      List.flatten_nil, List.append_nil]
    rfl
  · simp only [mainRun, hc, runLoop_start, Bool.false_eq_true, if_false]
    simp only [tableOf, coerce_numeric_columns, parseChunk, List.map_map, List.map_nil,
      List.flatten_nil, List.append_nil]
    rfl
  · simp

/-- The final state and output of a run do not depend on the initial
content of the output path when the input exists: the database file is
deleted up front. -/
lemma mainRun_db_indep (src : CsvSource) (hsrc : src ≠ CsvSource.absent)
    (db0 db1 : Option (Option Table)) (wf : Nat → Bool) (qf : Bool) :
    mainRun { src := src, db := db0 } wf qf = mainRun { src := src, db := db1 } wf qf := by
  cases src with
  | absent => exact absurd rfl hsrc
  | empty => rfl
  | file f => rfl

lemma mainRun_src_preserved (w : World) (wf : Nat → Bool) (qf : Bool) :
    (mainRun w wf qf).world.src = w.src := by
  rcases w with ⟨src, db⟩
  cases src with
  | absent => rfl
  | empty => rfl
  | file f =>
    simp only [mainRun]
    (repeat' split) <;> rfl

/-- C7.  Running the process twice on the same unchanged input yields the
identical final database — in particular the identical row count and
per-column type set — and the identical report, because the existing
database file is removed and the table fully rebuilt from the input on
each run. -/
theorem claim7_rerun_idempotent (w : World) (f : CSVFile) (h : w.src = CsvSource.file f) :
    (mainRun (mainRun w (fun _ => false) false).world (fun _ => false) false).world.db =
      (mainRun w (fun _ => false) false).world.db ∧
    (mainRun (mainRun w (fun _ => false) false).world (fun _ => false) false).output =
      (mainRun w (fun _ => false) false).output := by
  rcases w with ⟨src, db0⟩
  have h' : src = CsvSource.file f := h
  subst h'
  cases hW : (mainRun { src := CsvSource.file f, db := db0 } (fun _ => false) false).world with
  | mk s d =>
    have hs : s = CsvSource.file f := by
      have hp := mainRun_src_preserved { src := CsvSource.file f, db := db0 }
        (fun _ => false) false
      rw [hW] at hp
      exact hp
    subst hs
    rw [mainRun_db_indep (CsvSource.file f) (by simp) d db0 (fun _ => false) false]
    exact ⟨by rw [hW], rfl⟩

/-- Witness for C7: a one-column, one-row input, no pre-existing output. -/
theorem claim7_witness :
    (mainRun (mainRun { src := CsvSource.file { header := ["a"], rows := [["x"]] }, db := none }
        (fun _ => false) false).world (fun _ => false) false).world.db =
      (mainRun { src := CsvSource.file { header := ["a"], rows := [["x"]] }, db := none }
        (fun _ => false) false).world.db ∧
    (mainRun (mainRun { src := CsvSource.file { header := ["a"], rows := [["x"]] }, db := none }
        (fun _ => false) false).world (fun _ => false) false).output =
      (mainRun { src := CsvSource.file { header := ["a"], rows := [["x"]] }, db := none }
        (fun _ => false) false).output :=
  claim7_rerun_idempotent _ _ rfl

/-- C10.  Whenever the input path exists (in whatever state), the run's
final output-path content is independent of whatever database existed
before — it is deleted before any row is read — and the output path always
ends up holding a freshly created file, even when every write fails or no
chunk is ever written. -/
theorem claim10_db_destroyed (src : CsvSource) (hsrc : src ≠ CsvSource.absent)
    (db0 db1 : Option (Option Table)) (wf : Nat → Bool) (qf : Bool) :
    (mainRun { src := src, db := db0 } wf qf).world.db =
      (mainRun { src := src, db := db1 } wf qf).world.db ∧
    ∃ d, (mainRun { src := src, db := db0 } wf qf).world.db = some d := by
  constructor
  · rw [mainRun_db_indep src hsrc db0 db1 wf qf]
  · cases src with
    | absent => exact absurd rfl hsrc
    | empty => exact ⟨none, rfl⟩
    | file f =>
      simp only [mainRun]
      (repeat' split) <;> exact ⟨_, rfl⟩

/-- Witness for C10: the first write fails, yet the pre-existing database
(old table) is gone — the final state equals that of a run that started
with no database file at all, namely a fresh file without the table. -/
theorem claim10_witness :
    ((mainRun { src := CsvSource.file { header := ["a"], rows := [["1"]] },
                db := some (some { cols := [("old", "TEXT")], rows := [[SVal.text "v"]] }) }
        (fun _ => true) false).world.db =
      (mainRun { src := CsvSource.file { header := ["a"], rows := [["1"]] }, db := none }
        (fun _ => true) false).world.db ∧
    ∃ d, (mainRun { src := CsvSource.file { header := ["a"], rows := [["1"]] },
                    db := some (some { cols := [("old", "TEXT")], rows := [[SVal.text "v"]] }) }
        (fun _ => true) false).world.db = some d) ∧
    (mainRun { src := CsvSource.file { header := ["a"], rows := [["1"]] },
               db := some (some { cols := [("old", "TEXT")], rows := [[SVal.text "v"]] }) }
        (fun _ => true) false).world.db = some none :=
  ⟨claim10_db_destroyed _ (by decide) _ none (fun _ => true) false, by decide⟩
